import Mathlib

/-!
Verification development for the nobarmeriah backend: a shallow embedding of
the match-sync (reconciliation) and prediction-grading services, together with
theorems about the properties those services are documented to satisfy.

The embedding follows `src/services/gradingService.js` and
`src/services/matchSync.js`.  Pure computations become Lean functions; the
Supabase-backed state (prediction rows, user-stats rows, match rows) becomes
explicit lists of records threaded through the operations; provider fetches
become explicit parameters carrying the provider's `{success, data, results}`
envelope.  Record fields that no verified property mentions (logos, venues,
flags, elapsed minutes, halftime/extra-time/penalty sub-scores) are omitted
from the record types; every field an operation reads or writes is present.
ISO-8601 date strings, which the code only ever compares chronologically, are
modelled as integer timestamps.
-/

namespace Spec2Proof

/-! ## Case-insensitive substring matching

`String.prototype.includes` from JS, on explicit character lists.
`lowerChars` models `String.prototype.toLowerCase` (per-character lowering). -/

/-- Does the haystack start with the needle?  (needle first argument). -/
def startsWithChars : List Char → List Char → Bool
  | [], _ => true
  | _ :: _, [] => false
  | a :: as, b :: bs => a == b && startsWithChars as bs

/-- Does the haystack contain the needle as a contiguous substring? -/
def includesChars (needle : List Char) : List Char → Bool
  | [] => needle.isEmpty
  | b :: t => startsWithChars needle (b :: t) || includesChars needle t

/-- Per-character lowercasing of a string, as a character list. -/
def lowerChars (s : String) : List Char := s.toList.map Char.toLower

theorem startsWithChars_iff (n h : List Char) :
    startsWithChars n h = true ↔ ∃ t, h = n ++ t := by
  induction n generalizing h with
  | nil => simp [startsWithChars]
  | cons a as ih =>
    cases h with
    | nil => simp [startsWithChars]
    | cons b bs =>
      simp only [startsWithChars, Bool.and_eq_true, beq_iff_eq, ih, List.cons_append,
        List.cons.injEq]
      constructor
      · rintro ⟨rfl, t, rfl⟩; exact ⟨t, rfl, rfl⟩
      · rintro ⟨t, rfl, rfl⟩; exact ⟨rfl, t, rfl⟩

theorem includesChars_iff (n h : List Char) :
    includesChars n h = true ↔ ∃ p t, h = p ++ n ++ t := by
  induction h with
  | nil =>
    simp only [includesChars, List.isEmpty_iff]
    constructor
    · rintro rfl; exact ⟨[], [], rfl⟩
    · rintro ⟨p, t, ht⟩
      rcases List.append_eq_nil.mp (List.append_eq_nil.mp ht.symm).1 with ⟨-, h2⟩
      exact h2
  | cons b bs ih =>
    simp only [includesChars, Bool.or_eq_true, startsWithChars_iff, ih]
    constructor
    · rintro (⟨t, ht⟩ | ⟨p, t, ht⟩)
      · exact ⟨[], t, by simp [ht]⟩
      · exact ⟨b :: p, t, by simp [ht]⟩
    · rintro ⟨p, t, ht⟩
      cases p with
      | nil => exact Or.inl ⟨t, by simpa using ht⟩
      | cons c cs =>
        simp only [List.cons_append, List.cons.injEq] at ht
        exact Or.inr ⟨cs, t, ht.2⟩

/-! ## Grading service: scoring (`gradingService.js`) -/

/-- The fixed big-league allow-list (`BIG_LEAGUES`). -/
def BIG_LEAGUES : List String :=
  ["UEFA Champions League", "Premier League", "La Liga", "Serie A",
   "Bundesliga", "Liga 1", "Europa League", "World Cup", "Euro Championship"]

/-- `isBigMatch(leagueName)`: a falsy league name (absent or empty) is not big;
otherwise the name is big iff it contains, case-insensitively, some entry of
`BIG_LEAGUES` as a substring. -/
def isBigMatch (leagueName : Option String) : Bool :=
  match leagueName with
  | none => false
  | some name =>
    if name = "" then false
    else BIG_LEAGUES.any fun league => includesChars (lowerChars league) (lowerChars name)

/-- The two prediction kinds the service grades. -/
inductive PredictionType where
  | winner
  | score
deriving DecidableEq, Repr

/-- `calculatePoints(predictionType, isCorrect, leagueName)`. -/
def calculatePoints (predictionType : PredictionType) (isCorrect : Bool)
    (leagueName : Option String) : Nat :=
  if !isCorrect then 0
  else
    let isBig := isBigMatch leagueName
    match predictionType with
    | .winner => if isBig then 15 else 10
    | .score => if isBig then 25 else 20

/-- `calculateStreakBonus(streak)` (exported helper; the per-match stats update
below uses its own inline milestone logic). -/
def calculateStreakBonus (streak : Nat) : Nat :=
  if streak ≥ 10 then 25
  else if streak ≥ 5 then 10
  else if streak ≥ 3 then 5
  else 0

/-! ## Provider data shapes (API-Football envelope)

`apiFootball.getFixtures` resolves to `{success, data, results, ...}` on
success and `{success: false, error}` (no `data` field, modelled as the empty
list) on failure. -/

structure ApiStatus where
  short : String
  long : String
deriving DecidableEq, Repr

structure ApiFixture where
  id : Nat
  date : Int
  timestamp : Int
  status : ApiStatus
deriving DecidableEq, Repr

structure ApiTeam where
  id : Nat
  name : String
deriving DecidableEq, Repr

structure ApiTeams where
  home : ApiTeam
  away : ApiTeam
deriving DecidableEq, Repr

/-- A goals pair; a `none` entry models the provider's `null` score. -/
structure ApiGoals where
  home : Option Int
  away : Option Int
deriving DecidableEq, Repr

structure ApiLeague where
  id : Nat
  name : String
deriving DecidableEq, Repr

structure ApiScore where
  fulltime : ApiGoals
deriving DecidableEq, Repr

structure ApiMatch where
  fixture : ApiFixture
  league : ApiLeague
  teams : ApiTeams
  goals : ApiGoals
  score : ApiScore
deriving DecidableEq, Repr

structure ApiEnvelope where
  success : Bool
  data : List ApiMatch
  results : Nat
  error : Option String
deriving DecidableEq, Repr

/-! ## Grading service: fetching a match result -/

/-- The normalized result `getMatchResult` produces for a finished match. -/
structure MatchResult where
  matchId : Nat
  status : String
  homeTeam : String
  awayTeam : String
  homeScore : Option Int
  awayScore : Option Int
  winner : String
  leagueName : String
deriving DecidableEq, Repr

def finishedStatuses : List String := ["FT", "AET", "PEN"]

/-- JS `a > b` on goal counts, where a `null` operand coerces to 0. -/
def jsGtGoal (a b : Option Int) : Bool := a.getD 0 > b.getD 0

/-- `getMatchResult(matchId)`, with the provider's reply passed explicitly.
Returns `none` on fetch failure, an empty reply, or a non-finished status. -/
def getMatchResult (result : ApiEnvelope) : Option MatchResult :=
  if !result.success || result.data.isEmpty then none
  else
    match result.data with
    | [] => none
    | m :: _ =>
      if !(finishedStatuses.contains m.fixture.status.short) then none
      else
        let winner :=
          if jsGtGoal m.goals.home m.goals.away then "home"
          else if jsGtGoal m.goals.away m.goals.home then "away"
          else "draw"
        some { matchId := m.fixture.id, status := m.fixture.status.short,
               homeTeam := m.teams.home.name, awayTeam := m.teams.away.name,
               homeScore := m.goals.home, awayScore := m.goals.away,
               winner := winner, leagueName := m.league.name }

/-! ## Grading service: prediction rows and user stats rows -/

structure WinnerPrediction where
  id : Nat
  match_id : Nat
  email : String
  predicted_result : String
  status : String
  is_correct : Option Bool
  points_earned : Option Nat
  actual_result : Option String
  graded_at : Option Int
deriving DecidableEq, Repr

structure ScorePrediction where
  id : Nat
  match_id : Nat
  email : String
  predicted_home_score : Int
  predicted_away_score : Int
  status : String
  is_correct : Option Bool
  points_earned : Option Nat
  actual_home_score : Option Int
  actual_away_score : Option Int
  graded_at : Option Int
deriving DecidableEq, Repr

/-- A row of the `profiles` table (the fields the grading engine touches). -/
structure Profile where
  email : String
  total_experience : Option Nat
  season_points : Option Nat
  current_streak : Option Nat
  best_streak : Option Nat
  correct_predictions : Option Nat
  total_predictions : Option Nat
deriving DecidableEq, Repr

/-- The per-user partial result `{points, isCorrect}` collected while grading
one kind of prediction on one match. -/
structure UserResult where
  points : Nat
  isCorrect : Bool
deriving DecidableEq, Repr

/-! ## Grading service: grading the prediction rows of one match -/

def isPendingWinnerFor (matchId : Nat) (p : WinnerPrediction) : Bool :=
  p.match_id == matchId && p.status == "pending"

def isPendingScoreFor (matchId : Nat) (p : ScorePrediction) : Bool :=
  p.match_id == matchId && p.status == "pending"

def winnerIsCorrect (matchResult : MatchResult) (p : WinnerPrediction) : Bool :=
  p.predicted_result == matchResult.winner

/-- Strict JS equality between a stored integer and a possibly-null actual. -/
def scoreIsCorrect (matchResult : MatchResult) (p : ScorePrediction) : Bool :=
  some p.predicted_home_score == matchResult.homeScore &&
  some p.predicted_away_score == matchResult.awayScore

/-- The graded form of one pending winner-prediction row. -/
def gradeWinnerRow (now : Int) (matchResult : MatchResult) (p : WinnerPrediction) :
    WinnerPrediction :=
  let isCorrect := winnerIsCorrect matchResult p
  { p with
    status := "graded", is_correct := some isCorrect,
    points_earned := some (calculatePoints .winner isCorrect (some matchResult.leagueName)),
    actual_result := some matchResult.winner, graded_at := some now }

/-- The graded form of one pending score-prediction row. -/
def gradeScoreRow (now : Int) (matchResult : MatchResult) (p : ScorePrediction) :
    ScorePrediction :=
  let isCorrect := scoreIsCorrect matchResult p
  { p with
    status := "graded", is_correct := some isCorrect,
    points_earned := some (calculatePoints .score isCorrect (some matchResult.leagueName)),
    actual_home_score := matchResult.homeScore, actual_away_score := matchResult.awayScore,
    graded_at := some now }

/-- `gradeWinnerPredictions(matchId, matchResult)`: select the pending rows of
the match, write each back as graded, and collect `userResults`.  The JS
`userResults` object lets a later assignment for the same email shadow an
earlier one; we model it as an association list consulted with `List.lookup`,
reversed so the lookup finds the most recent assignment. -/
def gradeWinnerPredictions (now : Int) (matchId : Nat) (matchResult : MatchResult)
    (preds : List WinnerPrediction) :
    List WinnerPrediction × List (String × UserResult) :=
  (preds.map fun p => if isPendingWinnerFor matchId p then gradeWinnerRow now matchResult p else p,
   ((preds.filter (isPendingWinnerFor matchId)).map fun p =>
      (p.email,
       UserResult.mk (calculatePoints .winner (winnerIsCorrect matchResult p)
           (some matchResult.leagueName))
         (winnerIsCorrect matchResult p))).reverse)

/-- `gradeScorePredictions(matchId, matchResult)`, analogously. -/
def gradeScorePredictions (now : Int) (matchId : Nat) (matchResult : MatchResult)
    (preds : List ScorePrediction) :
    List ScorePrediction × List (String × UserResult) :=
  (preds.map fun p => if isPendingScoreFor matchId p then gradeScoreRow now matchResult p else p,
   ((preds.filter (isPendingScoreFor matchId)).map fun p =>
      (p.email,
       UserResult.mk (calculatePoints .score (scoreIsCorrect matchResult p)
           (some matchResult.leagueName))
         (scoreIsCorrect matchResult p))).reverse)

/-! ## Grading service: per-match user-stats update -/

/-- JS `result?.points || 0`. -/
def resultPoints : Option UserResult → Nat
  | some r => r.points
  | none => 0

/-- JS `result?.isCorrect === true` (also the truthiness of `result?.isCorrect`). -/
def resultCorrect : Option UserResult → Bool
  | some r => r.isCorrect
  | none => false

/-- JS `result ? 1 : 0`. -/
def resultMade : Option UserResult → Nat
  | some _ => 1
  | none => 0

/-- The pure heart of `updateUserStatsPerMatch`: the new profile row computed
from the fetched profile and the per-match winner/score partial results.
`Option.getD 0` models the JS `|| 0` null-guards. -/
def applyMatchStats (profile : Profile) (winnerResult scoreResult : Option UserResult) :
    Profile :=
  let totalPoints := resultPoints winnerResult + resultPoints scoreResult
  let hasCorrectPrediction := resultCorrect winnerResult || resultCorrect scoreResult
  let predictionsMade := resultMade winnerResult + resultMade scoreResult
  let correctPredictions :=
    (if resultCorrect winnerResult then 1 else 0) +
    (if resultCorrect scoreResult then 1 else 0)
  let oldStreak := profile.current_streak.getD 0
  let newStreak := if hasCorrectPrediction then oldStreak + 1 else 0
  let newBestStreak := max newStreak (profile.best_streak.getD 0)
  let streakBonus : Nat :=
    if hasCorrectPrediction then
      if newStreak == 3 && decide (oldStreak < 3) then 5
      else if newStreak == 5 && decide (oldStreak < 5) then 10
      else if newStreak == 10 && decide (oldStreak < 10) then 25
      else 0
    else 0
  let totalPointsEarned := totalPoints + streakBonus
  { profile with
    total_experience := some (profile.total_experience.getD 0 + totalPointsEarned),
    season_points := some (profile.season_points.getD 0 + totalPointsEarned),
    current_streak := some newStreak,
    best_streak := some newBestStreak,
    correct_predictions := some (profile.correct_predictions.getD 0 + correctPredictions),
    total_predictions := some (profile.total_predictions.getD 0 + predictionsMade) }

/-- `updateUserStatsPerMatch(email, winnerResult, scoreResult)` acting on the
`profiles` table.  The `.single()` read fails (and the function returns with
no write and no raised error) unless exactly one row carries the email; the
subsequent update rewrites every row with that email. -/
def updateUserStatsPerMatch (profiles : List Profile) (email : String)
    (winnerResult scoreResult : Option UserResult) : List Profile :=
  match profiles.filter fun p => p.email == email with
  | [profile] =>
    let newP := applyMatchStats profile winnerResult scoreResult
    profiles.map fun q => if q.email == email then newP else q
  | _ => profiles

/-! ## Grading service: the driver -/

/-- The persisted state the grading engine reads and writes. -/
structure Store where
  winnerPreds : List WinnerPrediction
  scorePreds : List ScorePrediction
  profiles : List Profile
deriving DecidableEq, Repr

/-- `getFinishedMatchesToGrade()`: distinct match ids carrying at least one
pending prediction of either kind. -/
def getFinishedMatchesToGrade (s : Store) : List Nat :=
  (((s.winnerPreds.filter fun p => p.status == "pending").map fun p => p.match_id) ++
   ((s.scorePreds.filter fun p => p.status == "pending").map fun p => p.match_id)).dedup

/-- The deduplicated email set (`new Set([...])` in the driver) of users who
had a pending prediction graded for this match. -/
def gradeMatchEmails (now : Int) (matchId : Nat) (matchResult : MatchResult) (s : Store) :
    List String :=
  ((gradeWinnerPredictions now matchId matchResult s.winnerPreds).2.map Prod.fst ++
   (gradeScorePredictions now matchId matchResult s.scorePreds).2.map Prod.fst).dedup

/-- The per-match body of `gradeAllPendingPredictions` (also the body of the
manual `gradeMatch`): grade both prediction kinds, then update stats once per
affected user. -/
def gradeMatchInStore (now : Int) (matchId : Nat) (matchResult : MatchResult) (s : Store) :
    Store :=
  let w := gradeWinnerPredictions now matchId matchResult s.winnerPreds
  let sc := gradeScorePredictions now matchId matchResult s.scorePreds
  { winnerPreds := w.1, scorePreds := sc.1,
    profiles := (gradeMatchEmails now matchId matchResult s).foldl
      (fun profs email => updateUserStatsPerMatch profs email (w.2.lookup email) (sc.2.lookup email))
      s.profiles }

/-- One iteration of the driver's match loop: fetch the result (`getResult`,
the provider lookup) and skip the match when it is `none` (not finished /
fetch failed), otherwise grade it. -/
def gradeStep (getResult : Nat → Option MatchResult) (now : Int) (st : Store)
    (mid : Nat) : Store :=
  match getResult mid with
  | none => st
  | some r => gradeMatchInStore now mid r st

/-- `gradeAllPendingPredictions()`: walk the derived work queue, one
`gradeStep` per candidate match. -/
def gradeAllPendingPredictions (getResult : Nat → Option MatchResult) (now : Int)
    (s : Store) : Store :=
  (getFinishedMatchesToGrade s).foldl (gradeStep getResult now) s

/-! ## Match sync service (`matchSync.js`) -/

/-- The static deny-list of broken upstream match ids. -/
def BLACKLISTED_MATCH_IDS : List Nat := [1434975]

/-- `isBlacklisted(matchId)`. -/
def isBlacklisted (matchId : Nat) : Bool := BLACKLISTED_MATCH_IDS.contains matchId

/-- A row of the `matches` table (the fields the sync engine reads or writes;
presentation-only columns are omitted). -/
structure StoredMatch where
  id : Nat
  date : Int
  timestamp : Int
  status : String
  status_short : String
  status_long : String
  is_live : Bool
  league_id : Nat
  league_name : String
  home_team_id : Nat
  home_team_name : String
  away_team_id : Nat
  away_team_name : String
  home_score : Option Int
  away_score : Option Int
  ft_home : Option Int
  ft_away : Option Int
  last_updated : Int
deriving DecidableEq, Repr

/-- `transformMatch(match)`: provider shape to canonical row.  The status
chain initializes to `scheduled`/not-live and reclassifies from the provider's
short code. -/
def transformMatch (now : Int) (m : ApiMatch) : StoredMatch :=
  let shortStatus := m.fixture.status.short
  let isLive := ["1H", "2H", "HT", "ET", "P", "BT", "LIVE"].contains shortStatus
  let status :=
    if ["1H", "2H", "HT", "ET", "P", "BT", "LIVE"].contains shortStatus then "live"
    else if ["FT", "AET", "PEN"].contains shortStatus then "finished"
    else if ["PST", "CANC", "ABD", "AWD", "WO"].contains shortStatus then "postponed"
    else "scheduled"
  { id := m.fixture.id, date := m.fixture.date, timestamp := m.fixture.timestamp,
    status := status, status_short := shortStatus, status_long := m.fixture.status.long,
    is_live := isLive,
    league_id := m.league.id, league_name := m.league.name,
    home_team_id := m.teams.home.id, home_team_name := m.teams.home.name,
    away_team_id := m.teams.away.id, away_team_name := m.teams.away.name,
    home_score := m.goals.home, away_score := m.goals.away,
    ft_home := m.score.fulltime.home, ft_away := m.score.fulltime.away,
    last_updated := now }

def transformMatches (now : Int) (ms : List ApiMatch) : List StoredMatch :=
  ms.map (transformMatch now)

/-- The store's `upsert(rows, onConflict: id)`: per row, replace the existing
row with the same id or append. -/
def upsertById (db : List StoredMatch) (rows : List StoredMatch) : List StoredMatch :=
  rows.foldl
    (fun acc r =>
      if acc.any fun m => m.id == r.id then acc.map fun m => if m.id == r.id then r else m
      else acc ++ [r]) db

/-- What `saveMatchesToDb` resolves to. -/
structure SaveOutcome where
  success : Bool
  count : Option Nat
  cached : Option Bool
  error : Option String
deriving DecidableEq, Repr

/-- `saveMatchesToDb(matches)`: drop blacklisted matches (the raw provider
shape always carries `fixture.id`), short-circuit a fully-filtered batch as a
successful count-0 no-op, otherwise transform and upsert. -/
def saveMatchesToDb (supabaseConfigured : Bool) (now : Int) (ms : List ApiMatch)
    (db : List StoredMatch) : SaveOutcome × List StoredMatch :=
  if !supabaseConfigured then
    ({ success := true, count := none, cached := some false, error := none }, db)
  else
    let filteredMatches := ms.filter fun m => !isBlacklisted m.fixture.id
    if filteredMatches.isEmpty then
      ({ success := true, count := some 0, cached := none, error := none }, db)
    else
      let transformedMatches := transformMatches now filteredMatches
      ({ success := true, count := some transformedMatches.length, cached := none, error := none },
       upsertById db transformedMatches)

/-- What the sync drivers resolve to.  `saved` holds `saveResult.success` — a
boolean — exactly as the source assigns it. -/
structure SyncOutcome where
  success : Bool
  fetched : Option Nat
  saved : Option Bool
  liveCount : Option Nat
  matchesOut : List StoredMatch
  error : Option String
deriving DecidableEq, Repr

/-- `syncTodayMatches()`, with the provider's reply passed explicitly. -/
def syncTodayMatches (fetch : ApiEnvelope) (supabaseConfigured : Bool) (now : Int)
    (db : List StoredMatch) : SyncOutcome × List StoredMatch :=
  if !fetch.success then
    ({ success := false, fetched := none, saved := none, liveCount := none,
       matchesOut := [], error := fetch.error }, db)
  else
    let save := saveMatchesToDb supabaseConfigured now fetch.data db
    ({ success := true, fetched := some fetch.results, saved := some save.1.success,
       liveCount := none, matchesOut := transformMatches now fetch.data, error := none },
     save.2)

/-- `syncLiveMatches()`: persist only when the live fetch is non-empty. -/
def syncLiveMatches (fetch : ApiEnvelope) (supabaseConfigured : Bool) (now : Int)
    (db : List StoredMatch) : SyncOutcome × List StoredMatch :=
  if !fetch.success then
    ({ success := false, fetched := none, saved := none, liveCount := none,
       matchesOut := [], error := fetch.error }, db)
  else
    let db2 :=
      if fetch.data.length > 0 then (saveMatchesToDb supabaseConfigured now fetch.data db).2
      else db
    ({ success := true, fetched := none, saved := none, liveCount := some fetch.results,
       matchesOut := transformMatches now fetch.data, error := none }, db2)

/-! ## Stuck-match repair -/

/-- The selection filter of `fixStuckMatches`:
`.or(is_live.eq.true, status.eq.live)` conjoined with `.lt(date, cutoff)`. -/
def isStuck (now maxHours : Int) (m : StoredMatch) : Bool :=
  (m.is_live || m.status == "live") && m.date < now - maxHours

/-- The repaired form of one stuck row: finished with copied fulltime scores
when both scores are present, abandoned otherwise; never live afterwards. -/
def fixStuckRow (now : Int) (m : StoredMatch) : StoredMatch :=
  let hasScores := m.home_score.isSome && m.away_score.isSome
  if hasScores then
    { m with
      status := "finished", status_short := "FT", status_long := "Match Finished",
      is_live := false, last_updated := now,
      ft_home := m.home_score, ft_away := m.away_score }
  else
    { m with
      status := "postponed", status_short := "ABD", status_long := "Match Abandoned",
      is_live := false, last_updated := now }

/-- What `fixStuckMatches` resolves to. -/
structure FixOutcome where
  success : Bool
  fixed : Option Nat
  failed : Option Nat
  error : Option String
deriving DecidableEq, Repr

/-- `fixStuckMatches(maxHours)`.  `id` is the table's primary key, so the
loop's per-id updates amount to the pointwise map below; the store echoes each
written row back, so every write passes the function's own verification
(`is_live=false` and the expected short status) and is counted as fixed. -/
def fixStuckMatches (supabaseConfigured : Bool) (now maxHours : Int)
    (db : List StoredMatch) : FixOutcome × List StoredMatch :=
  if !supabaseConfigured then
    ({ success := false, fixed := none, failed := none, error := some "Supabase not configured" },
     db)
  else
    let stuckMatches := db.filter (isStuck now maxHours)
    if stuckMatches.isEmpty then
      ({ success := true, fixed := some 0, failed := none, error := none }, db)
    else
      ({ success := true, fixed := some stuckMatches.length, failed := some 0, error := none },
       db.map fun m => if isStuck now maxHours m then fixStuckRow now m else m)

/-! ## Theorems -/

theorem big_leagues_lower_ne_nil : ∀ l ∈ BIG_LEAGUES, lowerChars l ≠ [] := by decide

/-- C4: for every graded prediction `calculatePoints` returns 0 whenever the
prediction is incorrect; for a correct winner prediction 15 in a big league
and 10 otherwise; for a correct score prediction 25 in a big league and 20
otherwise — and a league name is big iff it contains, case-insensitively and
as a contiguous substring, one of the entries of the fixed allow-list. -/
theorem claim_C4_calculatePoints :
    (∀ (pt : PredictionType) (ln : Option String), calculatePoints pt false ln = 0) ∧
    (∀ ln, calculatePoints .winner true ln = if isBigMatch ln then 15 else 10) ∧
    (∀ ln, calculatePoints .score true ln = if isBigMatch ln then 25 else 20) ∧
    (∀ name : String, isBigMatch (some name) = true ↔
      ∃ league ∈ BIG_LEAGUES, ∃ pre post,
        lowerChars name = pre ++ lowerChars league ++ post) := by
  refine ⟨fun pt ln => rfl, fun ln => rfl, fun ln => rfl, fun name => ?_⟩
  by_cases hn : name = ""
  · subst hn
    rw [show isBigMatch (some "") = false from rfl]
    simp only [Bool.false_eq_true, false_iff]
    rintro ⟨league, hlg, pre, post, h⟩
    have hne := big_leagues_lower_ne_nil league hlg
    have hz : lowerChars "" = [] := rfl
    rw [hz] at h
    rcases List.append_eq_nil.mp h.symm with ⟨h1, -⟩
    exact hne (List.append_eq_nil.mp h1).2
  · have hred : isBigMatch (some name) =
        BIG_LEAGUES.any fun league => includesChars (lowerChars league) (lowerChars name) := by
      simp [isBigMatch, hn]
    rw [hred]
    simp only [List.any_eq_true, includesChars_iff]

theorem claim_C4_witness :
    calculatePoints .winner true (some "Premier League") =
      (if isBigMatch (some "Premier League") then 15 else 10) ∧
    (isBigMatch (some "english premier league 2") = true ↔
      ∃ league ∈ BIG_LEAGUES, ∃ pre post,
        lowerChars "english premier league 2" = pre ++ lowerChars league ++ post) :=
  ⟨claim_C4_calculatePoints.2.1 (some "Premier League"),
   claim_C4_calculatePoints.2.2.2 "english premier league 2"⟩

/-- C5: `getMatchResult` returns `none` whenever the fetch failed, returned no
data, or the match's short status is outside {FT, AET, PEN}; otherwise it
returns a result carrying both scores and the league name whose winner is
"home" iff home goals exceed away goals, "away" iff away goals exceed home
goals, and "draw" iff the two are equal (goals compared after the JS null→0
coercion, the identity on actual scores). -/
theorem claim_C5_getMatchResult :
    (∀ resp : ApiEnvelope, resp.success = false → getMatchResult resp = none) ∧
    (∀ resp : ApiEnvelope, resp.data = [] → getMatchResult resp = none) ∧
    (∀ (resp : ApiEnvelope) (m : ApiMatch) (rest : List ApiMatch), resp.data = m :: rest →
       finishedStatuses.contains m.fixture.status.short = false →
       getMatchResult resp = none) ∧
    (∀ (resp : ApiEnvelope) (m : ApiMatch) (rest : List ApiMatch),
       resp.success = true → resp.data = m :: rest →
       finishedStatuses.contains m.fixture.status.short = true →
       ∃ r, getMatchResult resp = some r ∧
         r.homeScore = m.goals.home ∧ r.awayScore = m.goals.away ∧
         r.leagueName = m.league.name ∧
         (r.winner = "home" ↔ m.goals.home.getD 0 > m.goals.away.getD 0) ∧
         (r.winner = "away" ↔ (m.goals.away.getD 0 > m.goals.home.getD 0 ∧
            ¬(m.goals.home.getD 0 > m.goals.away.getD 0))) ∧
         (r.winner = "draw" ↔ m.goals.home.getD 0 = m.goals.away.getD 0)) := by
  refine ⟨fun resp h => by simp [getMatchResult, h], fun resp h => by simp [getMatchResult, h],
    fun resp m rest hdata hfin => ?_, fun resp m rest hsucc hdata hfin => ?_⟩
  · unfold getMatchResult
    cases hs : resp.success
    · simp
    · rw [hdata]
      have hnm : m.fixture.status.short ∉ finishedStatuses := by simpa using hfin
      simp [hnm]
  · unfold getMatchResult
    rw [hdata, hsucc]
    simp only [Bool.not_true, Bool.false_or, List.isEmpty_cons, Bool.false_eq_true, if_false,
      hfin, Bool.not_false, if_true]
    refine ⟨_, rfl, rfl, rfl, rfl, ?_, ?_, ?_⟩
    · simp only [jsGtGoal]
      by_cases h1 : m.goals.home.getD 0 > m.goals.away.getD 0 <;>
        by_cases h2 : m.goals.away.getD 0 > m.goals.home.getD 0 <;>
        simp [h1, h2]
    · simp only [jsGtGoal]
      by_cases h1 : m.goals.home.getD 0 > m.goals.away.getD 0 <;>
        by_cases h2 : m.goals.away.getD 0 > m.goals.home.getD 0 <;>
        simp [h1, h2]
    · simp only [jsGtGoal]
      by_cases h1 : m.goals.home.getD 0 > m.goals.away.getD 0 <;>
        by_cases h2 : m.goals.away.getD 0 > m.goals.home.getD 0 <;>
        simp [h1, h2] <;> omega

/-- A finished provider reply used to exercise the theorems on concrete data. -/
def sampleApiFinished : ApiMatch :=
  { fixture := { id := 100, date := 0, timestamp := 0,
                 status := { short := "FT", long := "Match Finished" } },
    league := { id := 39, name := "Premier League" },
    teams := { home := { id := 1, name := "A" }, away := { id := 2, name := "B" } },
    goals := { home := some 2, away := some 1 },
    score := { fulltime := { home := some 2, away := some 1 } } }

theorem claim_C5_witness :
    getMatchResult { success := false, data := [], results := 0, error := some "timeout" } = none ∧
    (∃ r, getMatchResult
        { success := true, data := [sampleApiFinished], results := 1, error := none } = some r ∧
      r.homeScore = sampleApiFinished.goals.home ∧
      r.awayScore = sampleApiFinished.goals.away ∧
      r.leagueName = sampleApiFinished.league.name ∧
      (r.winner = "home" ↔
        sampleApiFinished.goals.home.getD 0 > sampleApiFinished.goals.away.getD 0) ∧
      (r.winner = "away" ↔
        (sampleApiFinished.goals.away.getD 0 > sampleApiFinished.goals.home.getD 0 ∧
          ¬(sampleApiFinished.goals.home.getD 0 > sampleApiFinished.goals.away.getD 0))) ∧
      (r.winner = "draw" ↔
        sampleApiFinished.goals.home.getD 0 = sampleApiFinished.goals.away.getD 0)) :=
  ⟨claim_C5_getMatchResult.1 _ rfl,
   claim_C5_getMatchResult.2.2.2 _ sampleApiFinished [] rfl rfl (by decide)⟩

/-! ### Per-match user-stats characterization (shared by C1 and C2) -/

theorem applyMatchStats_experience (p : Profile) (wr sr : Option UserResult) :
    (applyMatchStats p wr sr).total_experience =
      some (p.total_experience.getD 0 + ((resultPoints wr + resultPoints sr) +
        (let oldStreak := p.current_streak.getD 0
         let newStreak := if resultCorrect wr || resultCorrect sr then oldStreak + 1 else 0
         if newStreak = 3 ∧ oldStreak < 3 then 5
         else if newStreak = 5 ∧ oldStreak < 5 then 10
         else if newStreak = 10 ∧ oldStreak < 10 then 25
         else 0))) := by
  cases hc : resultCorrect wr || resultCorrect sr
  · simp [applyMatchStats, hc]
  · simp [applyMatchStats, hc]

theorem applyMatchStats_season (p : Profile) (wr sr : Option UserResult) :
    (applyMatchStats p wr sr).season_points =
      some (p.season_points.getD 0 + ((resultPoints wr + resultPoints sr) +
        (let oldStreak := p.current_streak.getD 0
         let newStreak := if resultCorrect wr || resultCorrect sr then oldStreak + 1 else 0
         if newStreak = 3 ∧ oldStreak < 3 then 5
         else if newStreak = 5 ∧ oldStreak < 5 then 10
         else if newStreak = 10 ∧ oldStreak < 10 then 25
         else 0))) := by
  cases hc : resultCorrect wr || resultCorrect sr
  · simp [applyMatchStats, hc]
  · simp [applyMatchStats, hc]

/-- Membership in the driver's per-match email set: exactly the users with a
pending prediction (of either kind) on the match. -/
theorem mem_gradeMatchEmails (now : Int) (matchId : Nat) (r : MatchResult) (s : Store)
    (e : String) :
    e ∈ gradeMatchEmails now matchId r s ↔
      ((∃ p ∈ s.winnerPreds, isPendingWinnerFor matchId p = true ∧ p.email = e) ∨
       (∃ p ∈ s.scorePreds, isPendingScoreFor matchId p = true ∧ p.email = e)) := by
  simp only [gradeMatchEmails, gradeWinnerPredictions, gradeScorePredictions,
    List.mem_dedup, List.mem_append, List.map_reverse, List.mem_reverse,
    List.mem_map, List.mem_filter]
  aesop

/-- The user-stats row that the C1 streak scenario starts from. -/
def streakTwoProfile : Profile :=
  { email := "u@x", total_experience := some 100, season_points := some 40,
    current_streak := some 2, best_streak := some 2,
    correct_predictions := some 7, total_predictions := some 9 }

/-- C1: per match and user, the driver collects each user holding a pending
prediction on the match exactly once (duplicate-free email set, membership
iff some pending winner or score prediction with that email exists); one
stats update advances the streak iff at least one of the two per-match
results was correct and resets it to 0 otherwise, adds the number of graded
predictions to `total_predictions`, the number of correct ones to
`correct_predictions`, and the points of both plus the milestone bonus to
`total_experience`; in particular the streak-2, one-right-one-wrong scenario
ends with streak 3, a single +5 bonus, `total_predictions += 2`,
`correct_predictions += 1`. -/
theorem claim_C1_updateUserStatsPerMatch :
    (∀ (now : Int) (matchId : Nat) (r : MatchResult) (s : Store),
       (gradeMatchEmails now matchId r s).Nodup) ∧
    (∀ (now : Int) (matchId : Nat) (r : MatchResult) (s : Store) (e : String),
       e ∈ gradeMatchEmails now matchId r s ↔
         ((∃ p ∈ s.winnerPreds, isPendingWinnerFor matchId p = true ∧ p.email = e) ∨
          (∃ p ∈ s.scorePreds, isPendingScoreFor matchId p = true ∧ p.email = e))) ∧
    (∀ (p : Profile) (wr sr : Option UserResult),
       (applyMatchStats p wr sr).current_streak =
         some (if resultCorrect wr || resultCorrect sr then p.current_streak.getD 0 + 1 else 0)) ∧
    (∀ (p : Profile) (wr sr : Option UserResult),
       (applyMatchStats p wr sr).total_predictions =
         some (p.total_predictions.getD 0 + (resultMade wr + resultMade sr))) ∧
    (∀ (p : Profile) (wr sr : Option UserResult),
       (applyMatchStats p wr sr).correct_predictions =
         some (p.correct_predictions.getD 0 +
           ((if resultCorrect wr then 1 else 0) + (if resultCorrect sr then 1 else 0)))) ∧
    (∀ (p : Profile) (wr sr : Option UserResult),
       (applyMatchStats p wr sr).total_experience =
         some (p.total_experience.getD 0 + ((resultPoints wr + resultPoints sr) +
           (let oldStreak := p.current_streak.getD 0
            let newStreak := if resultCorrect wr || resultCorrect sr then oldStreak + 1 else 0
            if newStreak = 3 ∧ oldStreak < 3 then 5
            else if newStreak = 5 ∧ oldStreak < 5 then 10
            else if newStreak = 10 ∧ oldStreak < 10 then 25
            else 0)))) ∧
    updateUserStatsPerMatch [streakTwoProfile] "u@x"
        (some { points := 10, isCorrect := true }) (some { points := 0, isCorrect := false }) =
      [{ email := "u@x", total_experience := some 115, season_points := some 55,
         current_streak := some 3, best_streak := some 3,
         correct_predictions := some 8, total_predictions := some 11 }] := by
  exact ⟨fun now matchId r s => List.nodup_dedup _,
    fun now matchId r s e => mem_gradeMatchEmails now matchId r s e,
    fun p wr sr => rfl, fun p wr sr => rfl, fun p wr sr => rfl,
    fun p wr sr => applyMatchStats_experience p wr sr, by decide⟩

/-- A finished match result used to exercise the grading pipeline. -/
def testMatchResult : MatchResult :=
  { matchId := 1, status := "FT", homeTeam := "A", awayTeam := "B",
    homeScore := some 2, awayScore := some 1, winner := "home",
    leagueName := "Premier League" }

/-- A pending winner prediction on match 1 by `u@x`. -/
def testPendingWinner : WinnerPrediction :=
  { id := 1, match_id := 1, email := "u@x", predicted_result := "home",
    status := "pending", is_correct := none, points_earned := none,
    actual_result := none, graded_at := none }

/-- A one-user store with a single pending winner prediction. -/
def testStoreOneUser : Store :=
  { winnerPreds := [testPendingWinner], scorePreds := [], profiles := [streakTwoProfile] }

theorem claim_C1_witness :
    ("u@x" ∈ gradeMatchEmails 0 1 testMatchResult testStoreOneUser ↔
      ((∃ p ∈ testStoreOneUser.winnerPreds, isPendingWinnerFor 1 p = true ∧ p.email = "u@x") ∨
       (∃ p ∈ testStoreOneUser.scorePreds, isPendingScoreFor 1 p = true ∧ p.email = "u@x"))) ∧
    (applyMatchStats streakTwoProfile (some { points := 10, isCorrect := true })
        (some { points := 0, isCorrect := false })).current_streak =
      some (if resultCorrect (some { points := 10, isCorrect := true }) ||
          resultCorrect (some { points := 0, isCorrect := false }) then
        streakTwoProfile.current_streak.getD 0 + 1 else 0) :=
  ⟨claim_C1_updateUserStatsPerMatch.2.1 0 1 _ _ "u@x",
   claim_C1_updateUserStatsPerMatch.2.2.1 streakTwoProfile _ _⟩

/-- C2: the streak bonus added to `total_experience` and `season_points` is
exactly +5 when the streak reaches 3, +10 when it reaches 5 and +25 when it
reaches 10, awarded only when the new streak equals the milestone and the
previous streak was strictly below it; a correct match at streak 3 (moving to
4) awards nothing, and nothing is awarded when no prediction was correct. -/
theorem claim_C2_streak_bonus :
    (∀ (p : Profile) (wr sr : Option UserResult),
       (applyMatchStats p wr sr).total_experience =
         some (p.total_experience.getD 0 + ((resultPoints wr + resultPoints sr) +
           (let oldStreak := p.current_streak.getD 0
            let newStreak := if resultCorrect wr || resultCorrect sr then oldStreak + 1 else 0
            if newStreak = 3 ∧ oldStreak < 3 then 5
            else if newStreak = 5 ∧ oldStreak < 5 then 10
            else if newStreak = 10 ∧ oldStreak < 10 then 25
            else 0)))) ∧
    (∀ (p : Profile) (wr sr : Option UserResult),
       (applyMatchStats p wr sr).season_points =
         some (p.season_points.getD 0 + ((resultPoints wr + resultPoints sr) +
           (let oldStreak := p.current_streak.getD 0
            let newStreak := if resultCorrect wr || resultCorrect sr then oldStreak + 1 else 0
            if newStreak = 3 ∧ oldStreak < 3 then 5
            else if newStreak = 5 ∧ oldStreak < 5 then 10
            else if newStreak = 10 ∧ oldStreak < 10 then 25
            else 0)))) ∧
    (∀ (p : Profile) (wr sr : Option UserResult), p.current_streak = some 3 →
       (applyMatchStats p wr sr).total_experience =
         some (p.total_experience.getD 0 + (resultPoints wr + resultPoints sr))) ∧
    (∀ (p : Profile) (wr sr : Option UserResult),
       resultCorrect wr = false → resultCorrect sr = false →
       (applyMatchStats p wr sr).total_experience =
         some (p.total_experience.getD 0 + (resultPoints wr + resultPoints sr))) := by
  refine ⟨applyMatchStats_experience, applyMatchStats_season,
    fun p wr sr h3 => ?_, fun p wr sr hw hs => ?_⟩
  · rw [applyMatchStats_experience, h3]
    cases hc : resultCorrect wr || resultCorrect sr <;> simp
  · rw [applyMatchStats_experience, hw, hs]
    simp

theorem claim_C2_witness :
    streakTwoProfile.current_streak = some 2 ∧
    (applyMatchStats streakTwoProfile (some { points := 10, isCorrect := true })
        (some { points := 0, isCorrect := false })).total_experience =
      some (streakTwoProfile.total_experience.getD 0 +
        ((resultPoints (some { points := 10, isCorrect := true }) +
          resultPoints (some { points := 0, isCorrect := false })) +
         (let oldStreak := streakTwoProfile.current_streak.getD 0
          let newStreak := if resultCorrect (some { points := 10, isCorrect := true }) ||
              resultCorrect (some { points := 0, isCorrect := false }) then oldStreak + 1 else 0
          if newStreak = 3 ∧ oldStreak < 3 then 5
          else if newStreak = 5 ∧ oldStreak < 5 then 10
          else if newStreak = 10 ∧ oldStreak < 10 then 25
          else 0))) :=
  ⟨by decide, claim_C2_streak_bonus.1 streakTwoProfile _ _⟩

/-! ### Idempotence machinery (C3, C10)

Only rows with `status = "pending"` are selected for grading, so graded rows
are fixed points of every grading pass, and a user all of whose predictions
are graded is absent from every per-match email set. -/

theorem winner_step_fix (now : Int) (mid : Nat) (r : MatchResult) (p : WinnerPrediction)
    (h : p.status ≠ "pending") :
    (if isPendingWinnerFor mid p then gradeWinnerRow now r p else p) = p := by
  simp [isPendingWinnerFor, h]

theorem score_step_fix (now : Int) (mid : Nat) (r : MatchResult) (p : ScorePrediction)
    (h : p.status ≠ "pending") :
    (if isPendingScoreFor mid p then gradeScoreRow now r p else p) = p := by
  simp [isPendingScoreFor, h]

theorem gradeMatchInStore_winnerPreds (now : Int) (mid : Nat) (r : MatchResult) (s : Store) :
    (gradeMatchInStore now mid r s).winnerPreds =
      s.winnerPreds.map fun p =>
        if isPendingWinnerFor mid p then gradeWinnerRow now r p else p := rfl

theorem gradeMatchInStore_scorePreds (now : Int) (mid : Nat) (r : MatchResult) (s : Store) :
    (gradeMatchInStore now mid r s).scorePreds =
      s.scorePreds.map fun p =>
        if isPendingScoreFor mid p then gradeScoreRow now r p else p := rfl

theorem gradeMatchInStore_profiles (now : Int) (mid : Nat) (r : MatchResult) (s : Store) :
    (gradeMatchInStore now mid r s).profiles =
      (gradeMatchEmails now mid r s).foldl
        (fun profs email => updateUserStatsPerMatch profs email
          ((gradeWinnerPredictions now mid r s.winnerPreds).2.lookup email)
          ((gradeScorePredictions now mid r s.scorePreds).2.lookup email))
        s.profiles := rfl

theorem gradeStep_winner_fix (g : Nat → Option MatchResult) (now : Int) (st : Store)
    (mid : Nat) (i : Nat) (w : WinnerPrediction)
    (hw : st.winnerPreds.get? i = some w) (hs : w.status ≠ "pending") :
    (gradeStep g now st mid).winnerPreds.get? i = some w := by
  unfold gradeStep
  cases g mid with
  | none => exact hw
  | some r =>
    rw [gradeMatchInStore_winnerPreds, List.get?_map, hw]
    simp [winner_step_fix now mid r w hs]

theorem gradeStep_score_fix (g : Nat → Option MatchResult) (now : Int) (st : Store)
    (mid : Nat) (i : Nat) (w : ScorePrediction)
    (hw : st.scorePreds.get? i = some w) (hs : w.status ≠ "pending") :
    (gradeStep g now st mid).scorePreds.get? i = some w := by
  unfold gradeStep
  cases g mid with
  | none => exact hw
  | some r =>
    rw [gradeMatchInStore_scorePreds, List.get?_map, hw]
    simp [score_step_fix now mid r w hs]

theorem foldl_gradeStep_winner_fix (g : Nat → Option MatchResult) (now : Int)
    (mids : List Nat) :
    ∀ (st : Store) (i : Nat) (w : WinnerPrediction),
      st.winnerPreds.get? i = some w → w.status ≠ "pending" →
      (mids.foldl (gradeStep g now) st).winnerPreds.get? i = some w := by
  induction mids with
  | nil => intro st i w hw hs; exact hw
  | cons m ms ih =>
    intro st i w hw hs
    rw [List.foldl_cons]
    exact ih _ i w (gradeStep_winner_fix g now st m i w hw hs) hs

theorem foldl_gradeStep_score_fix (g : Nat → Option MatchResult) (now : Int)
    (mids : List Nat) :
    ∀ (st : Store) (i : Nat) (w : ScorePrediction),
      st.scorePreds.get? i = some w → w.status ≠ "pending" →
      (mids.foldl (gradeStep g now) st).scorePreds.get? i = some w := by
  induction mids with
  | nil => intro st i w hw hs; exact hw
  | cons m ms ih =>
    intro st i w hw hs
    rw [List.foldl_cons]
    exact ih _ i w (gradeStep_score_fix g now st m i w hw hs) hs

theorem applyMatchStats_email (p : Profile) (wr sr : Option UserResult) :
    (applyMatchStats p wr sr).email = p.email := rfl

theorem filter_map_update_ne (profs : List Profile) (e e' : String) (newP : Profile)
    (hne : e ≠ e') (hP : newP.email = e') :
    ((profs.map fun q => if q.email == e' then newP else q).filter fun p => p.email == e) =
      profs.filter fun p => p.email == e := by
  induction profs with
  | nil => rfl
  | cons q t ih =>
    rw [List.map_cons, List.filter_cons, List.filter_cons]
    by_cases hq : q.email = e'
    · have hif : (if q.email == e' then newP else q) = newP := by simp [hq]
      rw [hif]
      have h2 : (newP.email == e) = false := by
        rw [hP]; exact beq_eq_false_iff_ne.mpr fun h => hne h.symm
      have h3 : (q.email == e) = false := by
        rw [hq]; exact beq_eq_false_iff_ne.mpr fun h => hne h.symm
      rw [h2, h3]
      simp only [Bool.false_eq_true, if_false]
      exact ih
    · have hif : (if q.email == e' then newP else q) = q := by
        simp [beq_eq_false_iff_ne.mpr hq]
      rw [hif]
      by_cases hqe : q.email = e
      · have hb : (q.email == e) = true := by simp [hqe]
        rw [hb]
        simp only [if_true]
        rw [ih]
      · have hb : (q.email == e) = false := beq_eq_false_iff_ne.mpr hqe
        rw [hb]
        simp only [Bool.false_eq_true, if_false]
        rw [ih]

theorem updateUserStats_filter_ne (profs : List Profile) (e' : String)
    (wr sr : Option UserResult) (e : String) (hne : e ≠ e') :
    ((updateUserStatsPerMatch profs e' wr sr).filter fun p => p.email == e) =
      profs.filter fun p => p.email == e := by
  unfold updateUserStatsPerMatch
  cases hf : profs.filter (fun p => p.email == e') with
  | nil => rfl
  | cons q t =>
    cases t with
    | nil =>
      have hq : q.email = e' := by
        have hmem : q ∈ profs.filter (fun p => p.email == e') := by
          rw [hf]; exact List.mem_cons_self q []
        simpa using (List.mem_filter.mp hmem).2
      exact filter_map_update_ne profs e e' _ hne (by rw [applyMatchStats_email, hq])
    | cons r u => rfl

theorem foldl_updateUsers_filter (wmap smap : List (String × UserResult))
    (emails : List String) :
    ∀ (profs : List Profile) (e : String), e ∉ emails →
      ((emails.foldl
          (fun profs email => updateUserStatsPerMatch profs email
            (wmap.lookup email) (smap.lookup email)) profs).filter
          fun p => p.email == e) =
        profs.filter fun p => p.email == e := by
  induction emails with
  | nil => intro profs e he; rfl
  | cons a t ih =>
    intro profs e he
    rw [List.foldl_cons]
    have hne : e ≠ a := fun h => he (h ▸ List.mem_cons_self a t)
    rw [ih _ e fun hm => he (List.mem_cons_of_mem a hm),
      updateUserStats_filter_ne profs a _ _ e hne]

/-- Every prediction of user `e` in the store is already graded. -/
def allGradedFor (s : Store) (e : String) : Prop :=
  (∀ p ∈ s.winnerPreds, p.email = e → p.status = "graded") ∧
  (∀ p ∈ s.scorePreds, p.email = e → p.status = "graded")

theorem gradeMatchInStore_profiles_filter (now : Int) (mid : Nat) (r : MatchResult)
    (s : Store) (e : String) (h : allGradedFor s e) :
    ((gradeMatchInStore now mid r s).profiles.filter fun p => p.email == e) =
      s.profiles.filter fun p => p.email == e := by
  rw [gradeMatchInStore_profiles]
  apply foldl_updateUsers_filter
  intro hmem
  rcases (mem_gradeMatchEmails now mid r s e).mp hmem with
    ⟨p, hp, hpend, hem⟩ | ⟨p, hp, hpend, hem⟩
  · unfold isPendingWinnerFor at hpend
    simp only [Bool.and_eq_true, beq_iff_eq] at hpend
    have hg := h.1 p hp hem
    rw [hg] at hpend
    exact absurd hpend.2 (by decide)
  · unfold isPendingScoreFor at hpend
    simp only [Bool.and_eq_true, beq_iff_eq] at hpend
    have hg := h.2 p hp hem
    rw [hg] at hpend
    exact absurd hpend.2 (by decide)

theorem gradeStep_allGraded (g : Nat → Option MatchResult) (now : Int) (st : Store)
    (mid : Nat) (e : String) (h : allGradedFor st e) :
    allGradedFor (gradeStep g now st mid) e := by
  unfold gradeStep
  cases g mid with
  | none => exact h
  | some r =>
    constructor
    · rw [gradeMatchInStore_winnerPreds]
      intro p' hp'
      rcases List.mem_map.mp hp' with ⟨p, hp, rfl⟩
      cases hpend : isPendingWinnerFor mid p
      · simp only [hpend, Bool.false_eq_true, if_false]
        exact h.1 p hp
      · simp only [hpend, if_true]
        intro hem; rfl
    · rw [gradeMatchInStore_scorePreds]
      intro p' hp'
      rcases List.mem_map.mp hp' with ⟨p, hp, rfl⟩
      cases hpend : isPendingScoreFor mid p
      · simp only [hpend, Bool.false_eq_true, if_false]
        exact h.2 p hp
      · simp only [hpend, if_true]
        intro hem; rfl

theorem gradeStep_profiles_filter (g : Nat → Option MatchResult) (now : Int) (st : Store)
    (mid : Nat) (e : String) (h : allGradedFor st e) :
    ((gradeStep g now st mid).profiles.filter fun p => p.email == e) =
      st.profiles.filter fun p => p.email == e := by
  unfold gradeStep
  cases g mid with
  | none => rfl
  | some r => exact gradeMatchInStore_profiles_filter now mid r st e h

theorem foldl_gradeStep_profiles_filter (g : Nat → Option MatchResult) (now : Int)
    (mids : List Nat) :
    ∀ (st : Store) (e : String), allGradedFor st e →
      ((mids.foldl (gradeStep g now) st).profiles.filter fun p => p.email == e) =
        st.profiles.filter fun p => p.email == e := by
  induction mids with
  | nil => intro st e h; rfl
  | cons m ms ih =>
    intro st e h
    rw [List.foldl_cons, ih _ e (gradeStep_allGraded g now st m e h),
      gradeStep_profiles_filter g now st m e h]

/-- C3: a prediction row whose status is already "graded" is untouched by a
re-run of `gradeAllPendingPredictions` — same position, same points_earned,
is_correct and status — and the stats rows of a user all of whose predictions
are graded are untouched as well: only `status = "pending"` rows are selected
for grading and for the derived per-match user set. -/
theorem claim_C3_no_double_grade :
    (∀ (g : Nat → Option MatchResult) (now : Int) (s : Store) (i : Nat)
       (w : WinnerPrediction), s.winnerPreds.get? i = some w → w.status = "graded" →
       (gradeAllPendingPredictions g now s).winnerPreds.get? i = some w) ∧
    (∀ (g : Nat → Option MatchResult) (now : Int) (s : Store) (i : Nat)
       (w : ScorePrediction), s.scorePreds.get? i = some w → w.status = "graded" →
       (gradeAllPendingPredictions g now s).scorePreds.get? i = some w) ∧
    (∀ (g : Nat → Option MatchResult) (now : Int) (s : Store) (e : String),
       allGradedFor s e →
       ((gradeAllPendingPredictions g now s).profiles.filter fun p => p.email == e) =
         s.profiles.filter fun p => p.email == e) := by
  refine ⟨fun g now s i w hw hg => ?_, fun g now s i w hw hg => ?_, fun g now s e h => ?_⟩
  · exact foldl_gradeStep_winner_fix g now _ s i w hw (by rw [hg]; decide)
  · exact foldl_gradeStep_score_fix g now _ s i w hw (by rw [hg]; decide)
  · exact foldl_gradeStep_profiles_filter g now _ s e h

/-- An already-graded winner prediction row. -/
def gradedWinner : WinnerPrediction :=
  { id := 2, match_id := 1, email := "v@x", predicted_result := "home",
    status := "graded", is_correct := some true, points_earned := some 15,
    actual_result := some "home", graded_at := some 0 }

/-- The stats row of the user holding `gradedWinner`. -/
def vProfile : Profile :=
  { email := "v@x", total_experience := some 15, season_points := some 15,
    current_streak := some 1, best_streak := some 1,
    correct_predictions := some 1, total_predictions := some 1 }

/-- A store in which every prediction is already graded. -/
def gradedStore : Store :=
  { winnerPreds := [gradedWinner], scorePreds := [], profiles := [vProfile] }

theorem claim_C3_witness :
    (gradeAllPendingPredictions (fun _ => some testMatchResult) 0
        gradedStore).winnerPreds.get? 0 = some gradedWinner ∧
    ((gradeAllPendingPredictions (fun _ => some testMatchResult) 0
        gradedStore).profiles.filter fun p => p.email == "v@x") =
      gradedStore.profiles.filter fun p => p.email == "v@x" :=
  ⟨claim_C3_no_double_grade.1 _ 0 gradedStore 0 gradedWinner rfl rfl,
   claim_C3_no_double_grade.2.2 _ 0 gradedStore "v@x"
     ⟨fun p hp hem => by
        rcases List.mem_singleton.mp hp with rfl
        rfl,
      fun p hp hem => absurd hp (List.not_mem_nil p)⟩⟩

/-! ### Missing user-stats row (C10) -/

theorem foldl_update_no_profile (wmap smap : List (String × UserResult)) :
    ∀ (emails : List String) (profs : List Profile),
      (∀ e ∈ emails, profs.filter (fun p => p.email == e) = []) →
      emails.foldl
        (fun profs email => updateUserStatsPerMatch profs email
          (wmap.lookup email) (smap.lookup email)) profs = profs := by
  intro emails
  induction emails with
  | nil => intro profs h; rfl
  | cons a t ih =>
    intro profs h
    rw [List.foldl_cons]
    have ha : updateUserStatsPerMatch profs a (wmap.lookup a) (smap.lookup a) = profs := by
      unfold updateUserStatsPerMatch
      rw [h a (List.mem_cons_self a t)]
    rw [ha]
    exact ih profs fun e he => h e (List.mem_cons_of_mem a he)

/-- C10: when no stats row exists for the email, `updateUserStatsPerMatch`
returns without writing (and without surfacing an error) — yet the user's
pending predictions on the match have already been written back as graded,
independent of the profiles table, so their points are credited neither by
this invocation nor by any later run (the rows are no longer pending). -/
theorem claim_C10_missing_profile :
    (∀ (profs : List Profile) (e : String) (wr sr : Option UserResult),
       profs.filter (fun p => p.email == e) = [] →
       updateUserStatsPerMatch profs e wr sr = profs) ∧
    (∀ (now : Int) (mid : Nat) (r : MatchResult) (s : Store) (i : Nat)
       (w : WinnerPrediction),
       s.winnerPreds.get? i = some w → isPendingWinnerFor mid w = true →
       (gradeMatchInStore now mid r s).winnerPreds.get? i = some (gradeWinnerRow now r w) ∧
       (gradeWinnerRow now r w).status = "graded") ∧
    (∀ (now : Int) (mid : Nat) (r : MatchResult) (s : Store) (i : Nat)
       (w : ScorePrediction),
       s.scorePreds.get? i = some w → isPendingScoreFor mid w = true →
       (gradeMatchInStore now mid r s).scorePreds.get? i = some (gradeScoreRow now r w) ∧
       (gradeScoreRow now r w).status = "graded") ∧
    (∀ (now : Int) (mid : Nat) (r : MatchResult) (s : Store),
       (∀ e ∈ gradeMatchEmails now mid r s, s.profiles.filter (fun p => p.email == e) = []) →
       (gradeMatchInStore now mid r s).profiles = s.profiles) ∧
    (∀ (g : Nat → Option MatchResult) (now : Int) (s : Store) (e : String),
       allGradedFor s e →
       ((gradeAllPendingPredictions g now s).profiles.filter fun p => p.email == e) =
         s.profiles.filter fun p => p.email == e) := by
  refine ⟨fun profs e wr sr hf => ?_, fun now mid r s i w hw hpend => ?_,
    fun now mid r s i w hw hpend => ?_, fun now mid r s h => ?_,
    fun g now s e h => foldl_gradeStep_profiles_filter g now _ s e h⟩
  · unfold updateUserStatsPerMatch
    rw [hf]
  · refine ⟨?_, rfl⟩
    rw [gradeMatchInStore_winnerPreds, List.get?_map, hw]
    simp [hpend]
  · refine ⟨?_, rfl⟩
    rw [gradeMatchInStore_scorePreds, List.get?_map, hw]
    simp [hpend]
  · rw [gradeMatchInStore_profiles]
    exact foldl_update_no_profile _ _ _ s.profiles h

/-- A store holding a pending prediction by a user with no stats row. -/
def orphanStore : Store :=
  { winnerPreds := [testPendingWinner], scorePreds := [], profiles := [] }

theorem claim_C10_witness :
    updateUserStatsPerMatch [] "u@x" none none = [] ∧
    ((gradeMatchInStore 0 1 testMatchResult orphanStore).winnerPreds.get? 0 =
        some (gradeWinnerRow 0 testMatchResult testPendingWinner) ∧
      (gradeWinnerRow 0 testMatchResult testPendingWinner).status = "graded") ∧
    (gradeMatchInStore 0 1 testMatchResult orphanStore).profiles = orphanStore.profiles :=
  ⟨claim_C10_missing_profile.1 [] "u@x" none none rfl,
   claim_C10_missing_profile.2.1 0 1 testMatchResult orphanStore 0 testPendingWinner rfl
     (by decide),
   claim_C10_missing_profile.2.2.2.1 0 1 testMatchResult orphanStore fun e he => rfl⟩

/-! ### Stuck-match repair (C6, C7) -/

theorem fixStuckRow_is_live (now : Int) (m : StoredMatch) :
    (fixStuckRow now m).is_live = false := by
  unfold fixStuckRow
  by_cases h : (m.home_score.isSome && m.away_score.isSome) = true <;> simp [h]

theorem fixStuckMatches_fixes (now maxHours : Int) (db : List StoredMatch) (i : Nat)
    (m : StoredMatch) (hm : db.get? i = some m) (hstuck : isStuck now maxHours m = true) :
    (fixStuckMatches true now maxHours db).2.get? i = some (fixStuckRow now m) := by
  have hmem : m ∈ db := List.get?_mem hm
  have hmf : m ∈ db.filter (isStuck now maxHours) := List.mem_filter.mpr ⟨hmem, hstuck⟩
  have hne : (db.filter (isStuck now maxHours)).isEmpty = false := by
    cases hfe : db.filter (isStuck now maxHours) with
    | nil => rw [hfe] at hmf; cases hmf
    | cons a t => rfl
  unfold fixStuckMatches
  simp only [Bool.not_true, Bool.false_eq_true, if_false, hne]
  rw [List.get?_map, hm]
  simp [hstuck]

theorem fixStuckMatches_frame (cfg : Bool) (now maxHours : Int) (db : List StoredMatch)
    (i : Nat) (m : StoredMatch) (hm : db.get? i = some m)
    (hnot : isStuck now maxHours m = false) :
    (fixStuckMatches cfg now maxHours db).2.get? i = some m := by
  unfold fixStuckMatches
  cases cfg
  · exact hm
  · simp only [Bool.not_true, Bool.false_eq_true, if_false]
    by_cases he : (db.filter (isStuck now maxHours)).isEmpty
    · rw [if_pos he]
      exact hm
    · rw [if_neg he]
      rw [List.get?_map, hm]
      simp [hnot]

/-- C6: every row `fixStuckMatches` selects as stuck is rewritten by
`fixStuckRow`: when both scores are present the row becomes
finished/`FT` with the current score copied into the fulltime fields, when a
score is missing it becomes postponed/`ABD` with all score fields untouched;
`is_live` is cleared either way, the written row passes the function's own
verification, and the run reports success with a per-row fixed count. -/
theorem claim_C6_fixStuckMatches :
    (∀ (now maxHours : Int) (db : List StoredMatch) (i : Nat) (m : StoredMatch),
       db.get? i = some m → isStuck now maxHours m = true →
       (fixStuckMatches true now maxHours db).2.get? i = some (fixStuckRow now m)) ∧
    (∀ (now : Int) (m : StoredMatch), m.home_score ≠ none → m.away_score ≠ none →
       (fixStuckRow now m).status = "finished" ∧
       (fixStuckRow now m).status_short = "FT" ∧
       (fixStuckRow now m).ft_home = m.home_score ∧
       (fixStuckRow now m).ft_away = m.away_score ∧
       (fixStuckRow now m).is_live = false) ∧
    (∀ (now : Int) (m : StoredMatch), m.home_score = none ∨ m.away_score = none →
       (fixStuckRow now m).status = "postponed" ∧
       (fixStuckRow now m).status_short = "ABD" ∧
       (fixStuckRow now m).home_score = m.home_score ∧
       (fixStuckRow now m).away_score = m.away_score ∧
       (fixStuckRow now m).ft_home = m.ft_home ∧
       (fixStuckRow now m).ft_away = m.ft_away ∧
       (fixStuckRow now m).is_live = false) ∧
    (∀ (now maxHours : Int) (db : List StoredMatch),
       (fixStuckMatches true now maxHours db).1.success = true ∧
       (fixStuckMatches true now maxHours db).1.fixed =
         some (db.filter (isStuck now maxHours)).length) := by
  refine ⟨fixStuckMatches_fixes, fun now m h1 h2 => ?_, fun now m h12 => ?_,
    fun now maxHours db => ?_⟩
  · have hb : (m.home_score.isSome && m.away_score.isSome) = true := by
      rcases Option.ne_none_iff_exists.mp h1 with ⟨a, ha⟩
      rcases Option.ne_none_iff_exists.mp h2 with ⟨b, hb⟩
      simp [← ha, ← hb]
    unfold fixStuckRow
    rw [hb]
    simp
  · have hb : (m.home_score.isSome && m.away_score.isSome) = false := by
      rcases h12 with h | h <;> simp [h]
    unfold fixStuckRow
    rw [hb]
    simp
  · unfold fixStuckMatches
    simp only [Bool.not_true, Bool.false_eq_true, if_false]
    by_cases he : (db.filter (isStuck now maxHours)).isEmpty
    · rw [if_pos he]
      refine ⟨rfl, ?_⟩
      rw [List.isEmpty_iff.mp he]
      rfl
    · rw [if_neg he]
      exact ⟨rfl, rfl⟩

/-- The spec's staleness-repair example: live for 5 hours with score 2–1. -/
def stuckScoredRow : StoredMatch :=
  { id := 9, date := -5, timestamp := 0, status := "live", status_short := "2H",
    status_long := "Second Half", is_live := true, league_id := 1, league_name := "X",
    home_team_id := 1, home_team_name := "A", away_team_id := 2, away_team_name := "B",
    home_score := some 2, away_score := some 1, ft_home := none, ft_away := none,
    last_updated := 0 }

theorem claim_C6_witness :
    (fixStuckMatches true 0 4 [stuckScoredRow]).2.get? 0 =
      some (fixStuckRow 0 stuckScoredRow) ∧
    ((fixStuckRow 0 stuckScoredRow).status = "finished" ∧
     (fixStuckRow 0 stuckScoredRow).status_short = "FT" ∧
     (fixStuckRow 0 stuckScoredRow).ft_home = stuckScoredRow.home_score ∧
     (fixStuckRow 0 stuckScoredRow).ft_away = stuckScoredRow.away_score ∧
     (fixStuckRow 0 stuckScoredRow).is_live = false) :=
  ⟨claim_C6_fixStuckMatches.1 0 4 [stuckScoredRow] 0 stuckScoredRow rfl (by decide),
   claim_C6_fixStuckMatches.2.1 0 stuckScoredRow (by decide) (by decide)⟩

/-- A row that is not live (`is_live = false`) but still carries coarse status
"live" and an old date: the `.or(is_live.eq.true, status.eq.live)` filter
selects it, contradicting a selection on `is_live` alone. -/
def liveStatusRow : StoredMatch :=
  { id := 7, date := 0, timestamp := 0, status := "live", status_short := "2H",
    status_long := "Second Half", is_live := false, league_id := 1, league_name := "X",
    home_team_id := 1, home_team_name := "A", away_team_id := 2, away_team_name := "B",
    home_score := some 1, away_score := some 0, ft_home := none, ft_away := none,
    last_updated := 0 }

theorem claim_C7_counterexample :
    liveStatusRow.is_live = false ∧
    (fixStuckMatches true 10 4 [liveStatusRow]).2.get? 0 ≠ some liveStatusRow := by
  decide

/-- C7 (amended): `fixStuckMatches` modifies only rows satisfying
`(is_live = true OR status = "live") AND date < now − maxHours`; every row not
satisfying that conjunction is left entirely unchanged in place. -/
theorem claim_C7_fix_frame :
    ∀ (cfg : Bool) (now maxHours : Int) (db : List StoredMatch) (i : Nat)
      (m : StoredMatch), db.get? i = some m →
      ((m.is_live || m.status == "live") && decide (m.date < now - maxHours)) = false →
      (fixStuckMatches cfg now maxHours db).2.get? i = some m :=
  fun cfg now maxHours db i m hm hnot =>
    fixStuckMatches_frame cfg now maxHours db i m hm hnot

/-- An old finished row: not selected by the stuck-match filter. -/
def finishedRow : StoredMatch :=
  { id := 8, date := -100, timestamp := 0, status := "finished", status_short := "FT",
    status_long := "Match Finished", is_live := false, league_id := 1, league_name := "X",
    home_team_id := 1, home_team_name := "A", away_team_id := 2, away_team_name := "B",
    home_score := some 2, away_score := some 1, ft_home := some 2, ft_away := some 1,
    last_updated := 0 }

theorem claim_C7_witness :
    (fixStuckMatches true 0 4 [finishedRow]).2.get? 0 = some finishedRow :=
  claim_C7_fix_frame true 0 4 [finishedRow] 0 finishedRow rfl (by decide)

/-! ### Blacklist invariant (C8) and sync counts (C9) -/

theorem transformMatch_id (now : Int) (m : ApiMatch) :
    (transformMatch now m).id = m.fixture.id := rfl

theorem filter_map_id_ne (b : Nat) (r : StoredMatch) (hr : (r.id == b) = false) :
    ∀ db : List StoredMatch,
      ((db.map fun m => if m.id == r.id then r else m).filter fun m => m.id == b) =
        db.filter fun m => m.id == b := by
  intro db
  induction db with
  | nil => rfl
  | cons q t ih =>
    rw [List.map_cons, List.filter_cons, List.filter_cons]
    by_cases hq : q.id = r.id
    · have h1 : (if q.id == r.id then r else q) = r := by simp [hq]
      rw [h1, hr]
      have h2 : (q.id == b) = false := by rw [hq]; exact hr
      rw [h2]
      simp only [Bool.false_eq_true, if_false]
      exact ih
    · have h1 : (if q.id == r.id then r else q) = q := by
        simp [beq_eq_false_iff_ne.mpr hq]
      rw [h1]
      by_cases hqb : q.id = b
      · have hb2 : (q.id == b) = true := by simp [hqb]
        rw [hb2]
        simp only [if_true]
        rw [ih]
      · have hb2 : (q.id == b) = false := beq_eq_false_iff_ne.mpr hqb
        rw [hb2]
        simp only [Bool.false_eq_true, if_false]
        rw [ih]

theorem upsertById_frame (b : Nat) :
    ∀ (rows db : List StoredMatch), (∀ r ∈ rows, (r.id == b) = false) →
      ((upsertById db rows).filter fun m => m.id == b) = db.filter fun m => m.id == b := by
  intro rows
  induction rows with
  | nil => intro db h; rfl
  | cons r t ih =>
    intro db h
    have hstep : upsertById db (r :: t) =
        upsertById
          (if db.any (fun m => m.id == r.id) then db.map fun m => if m.id == r.id then r else m
           else db ++ [r]) t := rfl
    rw [hstep, ih _ fun x hx => h x (List.mem_cons_of_mem r hx)]
    have hr : (r.id == b) = false := h r (List.mem_cons_self r t)
    by_cases hany : db.any fun m => m.id == r.id
    · rw [if_pos hany]
      exact filter_map_id_ne b r hr db
    · rw [if_neg hany, List.filter_append]
      have hsingle : ([r].filter fun m => m.id == b) = [] := by
        rw [List.filter_cons, hr]
        simp
      rw [hsingle, List.append_nil]

theorem saveMatchesToDb_blacklist_frame (cfg : Bool) (now : Int) (ms : List ApiMatch)
    (db : List StoredMatch) (b : Nat) (hb : isBlacklisted b = true) :
    ((saveMatchesToDb cfg now ms db).2.filter fun m => m.id == b) =
      db.filter fun m => m.id == b := by
  unfold saveMatchesToDb
  cases cfg
  · rfl
  · simp only [Bool.not_true, Bool.false_eq_true, if_false]
    by_cases he : (ms.filter fun m => !isBlacklisted m.fixture.id).isEmpty
    · rw [if_pos he]
    · rw [if_neg he]
      apply upsertById_frame
      intro r hr
      rcases List.mem_map.mp hr with ⟨m, hm, rfl⟩
      rcases List.mem_filter.mp hm with ⟨-, hnotbl⟩
      rw [transformMatch_id]
      refine beq_eq_false_iff_ne.mpr fun hid => ?_
      rw [hid, hb] at hnotbl
      cases hnotbl

/-- C8: no write of a blacklisted match ever reaches the match store — not
from a direct `saveMatchesToDb` call, nor through `syncTodayMatches` or
`syncLiveMatches` — and a batch that is empty after the blacklist filter is a
successful count-0 no-op rather than an error. -/
theorem claim_C8_blacklist :
    (∀ (cfg : Bool) (now : Int) (ms : List ApiMatch) (db : List StoredMatch) (b : Nat),
       isBlacklisted b = true →
       ((saveMatchesToDb cfg now ms db).2.filter fun m => m.id == b) =
         db.filter fun m => m.id == b) ∧
    (∀ (fetch : ApiEnvelope) (cfg : Bool) (now : Int) (db : List StoredMatch) (b : Nat),
       isBlacklisted b = true →
       ((syncTodayMatches fetch cfg now db).2.filter fun m => m.id == b) =
         db.filter fun m => m.id == b) ∧
    (∀ (fetch : ApiEnvelope) (cfg : Bool) (now : Int) (db : List StoredMatch) (b : Nat),
       isBlacklisted b = true →
       ((syncLiveMatches fetch cfg now db).2.filter fun m => m.id == b) =
         db.filter fun m => m.id == b) ∧
    (∀ (now : Int) (ms : List ApiMatch) (db : List StoredMatch),
       (∀ m ∈ ms, isBlacklisted m.fixture.id = true) →
       (saveMatchesToDb true now ms db).1.success = true ∧
       (saveMatchesToDb true now ms db).1.count = some 0 ∧
       (saveMatchesToDb true now ms db).2 = db) := by
  refine ⟨saveMatchesToDb_blacklist_frame, fun fetch cfg now db b hb => ?_,
    fun fetch cfg now db b hb => ?_, fun now ms db h => ?_⟩
  · unfold syncTodayMatches
    cases hs : fetch.success
    · rfl
    · simp only [Bool.not_true, Bool.false_eq_true, if_false]
      exact saveMatchesToDb_blacklist_frame cfg now fetch.data db b hb
  · unfold syncLiveMatches
    cases hs : fetch.success
    · rfl
    · simp only [Bool.not_true, Bool.false_eq_true, if_false]
      by_cases hl : fetch.data.length > 0
      · rw [if_pos hl]
        exact saveMatchesToDb_blacklist_frame cfg now fetch.data db b hb
      · rw [if_neg hl]
  · have hf : (ms.filter fun m => !isBlacklisted m.fixture.id) = [] := by
      rw [List.filter_eq_nil]
      intro m hm
      simp [h m hm]
    refine ⟨?_, ?_, ?_⟩ <;> simp [saveMatchesToDb, hf]

/-- The (sole) blacklisted fixture, as a provider record. -/
def blacklistedApiMatch : ApiMatch :=
  { fixture := { id := 1434975, date := 0, timestamp := 0,
                 status := { short := "2H", long := "Second Half" } },
    league := { id := 1, name := "X" },
    teams := { home := { id := 1, name := "Rayners Lane" },
               away := { id := 2, name := "Hitchin Town" } },
    goals := { home := some 0, away := some 0 },
    score := { fulltime := { home := none, away := none } } }

theorem claim_C8_witness :
    ((saveMatchesToDb true 0 [blacklistedApiMatch] []).2.filter
        fun m => m.id == 1434975) = ([].filter fun m => m.id == 1434975) ∧
    ((saveMatchesToDb true 0 [blacklistedApiMatch] []).1.success = true ∧
     (saveMatchesToDb true 0 [blacklistedApiMatch] []).1.count = some 0 ∧
     (saveMatchesToDb true 0 [blacklistedApiMatch] []).2 = []) :=
  ⟨claim_C8_blacklist.1 true 0 [blacklistedApiMatch] [] 1434975 (by decide),
   claim_C8_blacklist.2.2.2 0 [blacklistedApiMatch] []
     (by intro m hm; rcases List.mem_singleton.mp hm with rfl; decide)⟩

/-- Two ordinary (non-blacklisted) provider matches. -/
def apiMatchA : ApiMatch :=
  { fixture := { id := 201, date := 0, timestamp := 0,
                 status := { short := "NS", long := "Not Started" } },
    league := { id := 39, name := "Premier League" },
    teams := { home := { id := 1, name := "A" }, away := { id := 2, name := "B" } },
    goals := { home := none, away := none },
    score := { fulltime := { home := none, away := none } } }

def apiMatchB : ApiMatch :=
  { fixture := { id := 202, date := 0, timestamp := 0,
                 status := { short := "NS", long := "Not Started" } },
    league := { id := 39, name := "Premier League" },
    teams := { home := { id := 3, name := "C" }, away := { id := 4, name := "D" } },
    goals := { home := none, away := none },
    score := { fulltime := { home := none, away := none } } }

/-- A successful provider reply carrying one match. -/
def envOneMatch : ApiEnvelope :=
  { success := true, data := [apiMatchA], results := 1, error := none }

/-- A successful provider reply carrying two matches. -/
def envTwoMatches : ApiEnvelope :=
  { success := true, data := [apiMatchA, apiMatchB], results := 2, error := none }

/-- Two runs that persist different numbers of matches (1 vs 2) report the
same `saved` field: `saved` cannot be a count of persisted matches. -/
theorem claim_C9_counterexample :
    (syncTodayMatches envOneMatch true 0 []).2.length = 1 ∧
    (syncTodayMatches envTwoMatches true 0 []).2.length = 2 ∧
    (syncTodayMatches envOneMatch true 0 []).1.saved =
      (syncTodayMatches envTwoMatches true 0 []).1.saved := by
  decide

/-- C9 (amended): on a successful provider fetch `syncTodayMatches` reports
`fetched` equal to the provider's reported match count and `saved` equal to
the boolean success flag of the persistence step (not a count), persisting
through `saveMatchesToDb`. -/
theorem claim_C9_sync_counts :
    ∀ (fetch : ApiEnvelope) (cfg : Bool) (now : Int) (db : List StoredMatch),
      fetch.success = true →
      (syncTodayMatches fetch cfg now db).1.success = true ∧
      (syncTodayMatches fetch cfg now db).1.fetched = some fetch.results ∧
      (syncTodayMatches fetch cfg now db).1.saved =
        some (saveMatchesToDb cfg now fetch.data db).1.success ∧
      (syncTodayMatches fetch cfg now db).2 = (saveMatchesToDb cfg now fetch.data db).2 := by
  intro fetch cfg now db hs
  unfold syncTodayMatches
  rw [hs]
  exact ⟨rfl, rfl, rfl, rfl⟩

theorem claim_C9_witness :
    (syncTodayMatches envOneMatch true 0 []).1.success = true ∧
    (syncTodayMatches envOneMatch true 0 []).1.fetched = some envOneMatch.results ∧
    (syncTodayMatches envOneMatch true 0 []).1.saved =
      some (saveMatchesToDb true 0 envOneMatch.data []).1.success ∧
    (syncTodayMatches envOneMatch true 0 []).2 = (saveMatchesToDb true 0 envOneMatch.data []).2 :=
  claim_C9_sync_counts envOneMatch true 0 [] rfl

end Spec2Proof
